import Mathlib

/-!
# Verification of the StaticJSON container/nullable/map handler protocol

Shallow embedding of `include/staticjson/stl_types.hpp`: the three generic
handler families `ArrayHandler`, `PointerHandler` and `MapHandler`, their
event-by-event state machines, error records, reuse (`prepare_for_reuse`),
encoding (`write`) and schema generation (`generate_schema`).

Types are indexed by a descriptor `Ty` closing the template recursion over
the four handler shapes that the specification covers: the scalar integer
leaf (an external collaborator, modelled from the spec), sequential
containers (`std::vector`-like), string-keyed maps (`std::map` /
`std::multimap`-like, distinguished by a `multi` flag reflecting the bound
container's own emplace rule), and the nullable owned slot
(`std::unique_ptr`-like).

The C++ handlers mutate a bound value through a pointer; here every event
function takes the handler state and the bound value and returns the
updated pair together with the success flag, exactly mirroring the source's
control flow.
-/

namespace StaticJson

/-- Type descriptors closing the handler template recursion. -/
inductive Ty
  | int
  | arr (t : Ty)
  | map (multi : Bool) (t : Ty)
  | ptr (t : Ty)
deriving DecidableEq

/-- The bound value of each descriptor: `int` binds an integer, `arr t` an
ordered sequence, `map multi t` a string-keyed association sequence in
container iteration order, `ptr t` an optional owned slot. -/
def Val : Ty → Type
  | .int => Int
  | .arr t => List (Val t)
  | .map _ t => List (String × Val t)
  | .ptr t => Option (Val t)

/-- Decidable equality of bound values, by recursion on the descriptor. -/
def decEqVal : (t : Ty) → DecidableEq (Val t)
  | .int => (inferInstance : DecidableEq Int)
  | .arr t =>
    have : DecidableEq (Val t) := decEqVal t
    (inferInstance : DecidableEq (List (Val t)))
  | .map _ t =>
    have : DecidableEq (Val t) := decEqVal t
    (inferInstance : DecidableEq (List (String × Val t)))
  | .ptr t =>
    have : DecidableEq (Val t) := decEqVal t
    (inferInstance : DecidableEq (Option (Val t)))

instance (t : Ty) : DecidableEq (Val t) := decEqVal t

/-- `ElementType()` / value-initialisation of the bound value. -/
def defaultVal : (t : Ty) → Val t
  | .int => (0 : Int)
  | .arr t => ([] : List (Val t))
  | .map _ t => ([] : List (String × Val t))
  | .ptr t => (none : Option (Val t))

/-- The SAX event alphabet of the Event Consumer Contract (`IHandler`):
one constructor per callback of `stl_types.hpp`'s handlers. The `double`
payload is irrelevant to every claim (the modelled integer leaf rejects
it by kind alone), so it is carried opaquely. -/
inductive Event
  | null
  | boolE (b : Bool)
  | intE (i : Int)
  | uintE (i : Nat)
  | int64E (i : Int)
  | uint64E (i : Nat)
  | doubleE
  | stringE (s : String)
  | keyE (s : String)
  | startObject
  | endObject (len : Nat)
  | startArray
  | endArray (len : Nat)
deriving DecidableEq

/-- The literal type string each handler method passes to `precheck` for its
event, as written in `ArrayHandler` / `MapHandler` (`"null"`, `"bool"`,
`"int"`, `"unsigned"`, `"int64_t"`, `"uint64_t"`, `"double"`, `"string"`,
`"object"` for keys and object braces, `"array"` for array braces). -/
def Event.kindName : Event → String
  | .null => "null"
  | .boolE _ => "bool"
  | .intE _ => "int"
  | .uintE _ => "unsigned"
  | .int64E _ => "int64_t"
  | .uint64E _ => "uint64_t"
  | .doubleE => "double"
  | .stringE _ => "string"
  | .keyE _ => "object"
  | .startObject => "object"
  | .endObject _ => "object"
  | .startArray => "array"
  | .endArray _ => "array"

/-- `true` exactly for the two events `ArrayHandler` treats structurally
(`StartArray` / `EndArray`); every other event goes through `precheck`. -/
def Event.isArrayEvent : Event → Bool
  | .startArray => true
  | .endArray _ => true
  | _ => false

/-- `true` exactly for the events `MapHandler` does not route through
`precheck`: its own braces (`StartObject` / `EndObject`) and `Key`. -/
def Event.isObjectEvent : Event → Bool
  | .startObject => true
  | .endObject _ => true
  | .keyE _ => true
  | _ => false

/-- The error records of `error::*` used by these handlers:
`TypeMismatchError(expected_type_name, actual_kind)`,
`ArrayElementError(index)`, `ObjectMemberError(key)`. -/
inductive ErrType
  | typeMismatch (expected : String) (actual : String)
  | arrayElement (idx : Nat)
  | objectMember (key : String)
deriving DecidableEq

/-- Handler state per descriptor, holding exactly the fields of the C++
classes: the `BaseHandler` members `parsed` and `the_error`, plus per class
the element buffer, the nested handler, the accumulated key (maps), the
lazily constructed inner handler (pointer), and the `depth` counter.
`PointerHandler`'s nullable `internal_handler` member is split into the two
constructors `ptrNone` (not yet constructed) and `ptrSome` (constructed),
since an `Option` of an indexed nested type is not accepted here. -/
inductive HState : Ty → Type
  | intS (parsed : Bool) (err : Option ErrType) : HState .int
  | arrS {t : Ty} (parsed : Bool) (err : Option ErrType)
      (element : Val t) (internal : HState t) (depth : Int) : HState (.arr t)
  | mapS {multi : Bool} {t : Ty} (parsed : Bool) (err : Option ErrType)
      (element : Val t) (internal : HState t) (currentKey : String)
      (depth : Int) : HState (.map multi t)
  | ptrNone {t : Ty} (parsed : Bool) (err : Option ErrType)
      (depth : Int) : HState (.ptr t)
  | ptrSome {t : Ty} (parsed : Bool) (err : Option ErrType)
      (internal : HState t) (depth : Int) : HState (.ptr t)

/-- The state of a freshly constructed handler: `ArrayHandler(value)` binds
`internal` to a value-initialised `element`; `MapHandler` additionally has
an empty `current_key`; `PointerHandler` starts with no inner handler. -/
def initState : (t : Ty) → HState t
  | .int => .intS false none
  | .arr t => .arrS false none (defaultVal t) (initState t) 0
  | .map _ t => .mapS false none (defaultVal t) (initState t) "" 0
  | .ptr _ => .ptrNone false none 0

/-- `is_parsed()`: the `BaseHandler::parsed` flag. -/
def isParsed : {t : Ty} → HState t → Bool
  | _, .intS p _ => p
  | _, .arrS p _ _ _ _ => p
  | _, .mapS p _ _ _ _ _ => p
  | _, .ptrNone p _ _ => p
  | _, .ptrSome p _ _ _ => p

/-- The handler's own `the_error` member. -/
def theErrorOf : {t : Ty} → HState t → Option ErrType
  | _, .intS _ e => e
  | _, .arrS _ e _ _ _ => e
  | _, .mapS _ e _ _ _ _ => e
  | _, .ptrNone _ e _ => e
  | _, .ptrSome _ e _ _ => e

/-- The `depth` counter of a non-leaf handler (0 for the leaf). -/
def depthOf : {t : Ty} → HState t → Int
  | _, .intS _ _ => 0
  | _, .arrS _ _ _ _ d => d
  | _, .mapS _ _ _ _ _ d => d
  | _, .ptrNone _ _ d => d
  | _, .ptrSome _ _ _ d => d

/-- The lazily constructed inner handler of a `PointerHandler` state
(`none` while `internal_handler` is still null). -/
def ptrInternal : {t : Ty} → HState (.ptr t) → Option (HState t)
  | _, .ptrNone _ _ _ => none
  | _, .ptrSome _ _ h _ => some h

/-- The inner handler's `parsed` flag of a `PointerHandler` state
(`false` when the inner handler has not been constructed). -/
def ptrInnerParsed : {t : Ty} → HState (.ptr t) → Bool
  | t, .ptrSome _ _ h _ => isParsed (t := t) h
  | _, .ptrNone _ _ _ => false

/-- `type_name()` of each concrete `Handler` specialisation, computed as in
the source by recursing into the nested handler (`std::vector<...>`,
`std::map<std::string, ...>` / `std::multimap<std::string, ...>`,
`std::unique_ptr<...>` — the pointer name degrades to `std::unique_ptr`
while its inner handler is unconstructed). The integer leaf's name is
modelled from the spec as `"int"`. -/
def typeNameS : {t : Ty} → HState t → String
  | _, .intS _ _ => "int"
  | _, .arrS _ _ _ int_ _ => "std::vector<" ++ typeNameS int_ ++ ">"
  | .map multi _, .mapS _ _ _ int_ _ _ =>
    (if multi then "std::multimap<std::string, " else "std::map<std::string, ")
      ++ typeNameS int_ ++ ">"
  | _, .ptrSome _ _ h _ => "std::unique_ptr<" ++ typeNameS h ++ ">"
  | _, .ptrNone _ _ _ => "std::unique_ptr"

/-- `m_value->size()` of a bound sequential container. -/
def arrSize {t : Ty} (v : Val (.arr t)) : Nat :=
  List.length (show List (Val t) from v)

/-- `BaseHandler::prepare_for_reuse()` (modelled from the spec, the base
class being outside `src/`): clear `the_error`, clear `parsed`, then run the
virtual `reset()` — whose overrides are taken verbatim from `stl_types.hpp`:
`ArrayHandler::reset` value-initialises `element`, recursively reuses
`internal` and zeroes `depth` (it does not touch `*m_value`);
`MapHandler::reset` additionally clears `current_key`;
`PointerHandler::reset` zeroes `depth`, destroys `internal_handler` and
resets the bound slot to empty. The scalar leaf's `reset` is a no-op.
The returned pair is (new handler state, new bound value). -/
def prepareForReuse : (t : Ty) → HState t → Val t → HState t × Val t
  | .int, _, v => (.intS false none, v)
  | .arr t, .arrS _ _ _ int_ _, v =>
    let ie := prepareForReuse t int_ (defaultVal t)
    (.arrS false none ie.2 ie.1 0, v)
  | .map _ t, .mapS _ _ _ int_ _ _, v =>
    let ie := prepareForReuse t int_ (defaultVal t)
    (.mapS false none ie.2 ie.1 "" 0, v)
  | .ptr _, .ptrNone _ _ _, _ => (.ptrNone false none 0, none)
  | .ptr _, .ptrSome _ _ _ _, _ => (.ptrNone false none 0, none)

/-- Lexicographic strict order on character lists, comparing code points:
the `std::string` `operator<` used by the ordered map's `std::less` key
comparator. -/
def charsLt : List Char → List Char → Bool
  | [], [] => false
  | [], _ :: _ => true
  | _ :: _, [] => false
  | a :: as, b :: bs =>
    if a.toNat < b.toNat then true
    else if b.toNat < a.toNat then false
    else charsLt as bs

/-- `std::string` `operator<` on the two keys. -/
def strLt (a b : String) : Bool := charsLt a.data b.data

/-- The bound map container's own `emplace(key, value)` rule: for the plain
`std::map` model (`multi = false`) an existing equal key wins and the new
entry is dropped; for the `std::multimap` model (`multi = true`) the new
entry is inserted at the upper bound of the equal-key range. Distinct keys
are kept in key order, matching ordered-map iteration. -/
def mapEmplace (multi : Bool) {t : Ty} (k : String) (x : Val t) :
    List (String × Val t) → List (String × Val t)
  | [] => [(k, x)]
  | (k', x') :: rest =>
    if strLt k k' then (k, x) :: (k', x') :: rest
    else if strLt k' k then (k', x') :: mapEmplace multi k x rest
    else if multi then (k', x') :: mapEmplace multi k x rest
    else (k', x') :: rest

/-- `ArrayHandler::postcheck(success)` applied to the result `res` of a
forwarded event (`res` = success flag, updated element handler, updated
element buffer): on failure record `ArrayElementError(m_value->size())`; on
success, if the element handler `is_parsed()`, move the element onto the
back of the container, value-initialise the buffer, and
`prepare_for_reuse()` the element handler. -/
def arrForward (t : Ty) (p : Bool) (e : Option ErrType) (d : Int)
    (v : Val (.arr t)) (res : Bool × HState t × Val t) :
    Bool × HState (.arr t) × Val (.arr t) :=
  if res.1 then
    if isParsed res.2.1 then
      let ie := prepareForReuse t res.2.1 (defaultVal t)
      (true, .arrS p e ie.2 ie.1 d,
        (show List (Val t) from v) ++ [res.2.2])
    else (true, .arrS p e res.2.2 res.2.1 d, v)
  else (false, .arrS p (some (.arrayElement (arrSize v))) res.2.2 res.2.1 d, v)

/-- `precheck(kind) && postcheck(internal.Event(...))` of `ArrayHandler`:
with `depth <= 0` fail with `TypeMismatchError(type_name(), kind)` without
forwarding (the element handler and the container are untouched); otherwise
forward and postcheck. `selfName` is the handler's `type_name()`. -/
def arrScalar (t : Ty) (p : Bool) (e : Option ErrType) (elem : Val t)
    (int_ : HState t) (d : Int) (v : Val (.arr t)) (selfName kind : String)
    (res : Bool × HState t × Val t) : Bool × HState (.arr t) × Val (.arr t) :=
  if d ≤ 0 then
    (false, .arrS p (some (.typeMismatch selfName kind)) elem int_ d, v)
  else arrForward t p e d v res

/-- `MapHandler::postcheck(success)` applied to the result of a forwarded
event: on failure record `ObjectMemberError(current_key)`; on success, if
the element handler `is_parsed()`, `emplace` (moving the key and the
element — the moved-from key is modelled as emptied), value-initialise the
buffer and `prepare_for_reuse()` the element handler. -/
def mapForward (multi : Bool) (t : Ty) (p : Bool) (e : Option ErrType)
    (key : String) (d : Int) (v : Val (.map multi t))
    (res : Bool × HState t × Val t) :
    Bool × HState (.map multi t) × Val (.map multi t) :=
  if res.1 then
    if isParsed res.2.1 then
      let ie := prepareForReuse t res.2.1 (defaultVal t)
      (true, .mapS p e ie.2 ie.1 "" d, mapEmplace multi key res.2.2 v)
    else (true, .mapS p e res.2.2 res.2.1 key d, v)
  else (false, .mapS p (some (.objectMember key)) res.2.2 res.2.1 key d, v)

/-- `precheck(kind) && postcheck(...)` of `MapHandler`: with `depth <= 0`
fail via `set_type_mismatch(kind)` (modelled from the spec's error model:
it records `TypeMismatchError(type_name(), kind)`) without forwarding;
otherwise forward and postcheck. -/
def mapScalar (multi : Bool) (t : Ty) (p : Bool) (e : Option ErrType)
    (elem : Val t) (int_ : HState t) (key : String) (d : Int)
    (v : Val (.map multi t)) (selfName kind : String)
    (res : Bool × HState t × Val t) :
    Bool × HState (.map multi t) × Val (.map multi t) :=
  if d ≤ 0 then
    (false, .mapS p (some (.typeMismatch selfName kind)) elem int_ key d, v)
  else mapForward multi t p e key d v res

/-- `PointerHandler::initialize()`: if `internal_handler` is null, reset the
bound slot to a freshly default-constructed element and construct the
handler over it; otherwise leave both alone. Returns the (now definitely
constructed) inner handler state and held value; when the inner handler
already exists the held value is read from the slot. -/
def ptrInitialize (t : Ty) (oi : Option (HState t)) (v : Option (Val t)) :
    HState t × Val t :=
  match oi with
  | none => (initState t, defaultVal t)
  | some h => (h, v.getD (defaultVal t))

/-- `PointerHandler::postcheck(success)` wrapped around a forwarded result:
on success this handler's `parsed` mirrors the inner handler's. The slot
keeps holding the (possibly mutated) element. -/
def ptrPostcheck (t : Ty) (p : Bool) (e : Option ErrType) (d : Int)
    (res : Bool × HState t × Val t) :
    Bool × HState (.ptr t) × Val (.ptr t) :=
  (res.1, .ptrSome (if res.1 then isParsed res.2.1 else p) e res.2.1 d,
    some res.2.2)

/-- The forwarding done by `PointerHandler::StartObject`, which returns the
inner result directly without `postcheck`: `parsed` keeps its prior value. -/
def ptrNoPostcheck (t : Ty) (p : Bool) (e : Option ErrType) (d : Int)
    (res : Bool × HState t × Val t) :
    Bool × HState (.ptr t) × Val (.ptr t) :=
  (res.1, .ptrSome p e res.2.1 d, some res.2.2)

/-- Rebuild a `PointerHandler` state from its fields (the inner handler
being optional). -/
def ptrMk {t : Ty} (p : Bool) (e : Option ErrType) (oi : Option (HState t))
    (d : Int) : HState (.ptr t) :=
  match oi with
  | none => .ptrNone p e d
  | some h => .ptrSome p e h d

/-- Modelled from the spec: the scalar integer leaf handler (an external
collaborator outside `src/`, §2 "Scalar Handlers" and §6 "Scalar handler
contract"). The `int` numeric event stores the value into the bound
integer and marks `parsed`; every other event kind is invalid for the
primitive and fails with `TypeMismatch(expected="int", actual=event kind)`
as §6/§7 require. -/
def intHandle (p : Bool) (e : Option ErrType) (v : Int) (ev : Event) :
    Bool × HState .int × Int :=
  match ev with
  | .intE i => (true, .intS true e, i)
  | _ => (false, .intS p (some (.typeMismatch "int" ev.kindName)), v)

/-- One event step of each handler, transcribed method by method from
`stl_types.hpp`. For `ArrayHandler`: every non-array event goes through
`precheck`/`postcheck` (`arrScalar`); `StartArray` pre-increments `depth`
and forwards only when the new depth exceeds 1; `EndArray` pre-decrements
and forwards only while the new depth stays positive, otherwise it marks
`parsed` and succeeds. For `MapHandler`: `Key` stores the bytes as
`current_key` when `depth <= 1` and forwards otherwise; `StartObject` /
`EndObject` mirror the array braces; everything else (arrays included) is
`precheck`/`postcheck`. For `PointerHandler`: `Null` at `depth == 0` empties
the slot and marks `parsed` without constructing anything; all other paths
`initialize()` first; braces adjust `depth` before forwarding; every
forwarded event except `StartObject` runs `postcheck`. -/
def handle : (t : Ty) → HState t → Val t → Event → Bool × HState t × Val t
  | .int, .intS p e, v, ev => intHandle p e v ev
  | .arr t, .arrS p e elem int_ d, v, ev =>
    match ev with
    | .startArray =>
      if d + 1 > 1 then arrForward t p e (d + 1) v (handle t int_ elem .startArray)
      else (true, .arrS p e elem int_ (d + 1), v)
    | .endArray len =>
      if d - 1 > 0 then arrForward t p e (d - 1) v (handle t int_ elem (.endArray len))
      else (true, .arrS true e elem int_ (d - 1), v)
    | ev =>
      arrScalar t p e elem int_ d v
        ("std::vector<" ++ typeNameS int_ ++ ">") ev.kindName
        (handle t int_ elem ev)
  | .map multi t, .mapS p e elem int_ key d, v, ev =>
    match ev with
    | .keyE s =>
      if d > 1 then mapForward multi t p e key d v (handle t int_ elem (.keyE s))
      else (true, .mapS p e elem int_ s d, v)
    | .startObject =>
      if d + 1 > 1 then mapForward multi t p e key (d + 1) v (handle t int_ elem .startObject)
      else (true, .mapS p e elem int_ key (d + 1), v)
    | .endObject len =>
      if d - 1 > 0 then mapForward multi t p e key (d - 1) v (handle t int_ elem (.endObject len))
      else (true, .mapS true e elem int_ key (d - 1), v)
    | ev =>
      mapScalar multi t p e elem int_ key d v
        ((if multi then "std::multimap<std::string, "
          else "std::map<std::string, ") ++ typeNameS int_ ++ ">")
        ev.kindName (handle t int_ elem ev)
  | .ptr t, st, v, ev =>
    let p := isParsed st
    let e := theErrorOf st
    let d := depthOf st
    let oi := ptrInternal st
    match ev with
    | .null =>
      if d = 0 then (true, ptrMk true e oi 0, (none : Option (Val t)))
      else
        let hx := ptrInitialize t oi v
        ptrPostcheck t p e d (handle t hx.1 hx.2 .null)
    | .startObject =>
      let hx := ptrInitialize t oi v
      ptrNoPostcheck t p e (d + 1) (handle t hx.1 hx.2 .startObject)
    | .endObject len =>
      let hx := ptrInitialize t oi v
      ptrPostcheck t p e (d - 1) (handle t hx.1 hx.2 (.endObject len))
    | .startArray =>
      let hx := ptrInitialize t oi v
      ptrPostcheck t p e (d + 1) (handle t hx.1 hx.2 .startArray)
    | .endArray len =>
      let hx := ptrInitialize t oi v
      ptrPostcheck t p e (d - 1) (handle t hx.1 hx.2 (.endArray len))
    | ev =>
      let hx := ptrInitialize t oi v
      ptrPostcheck t p e d (handle t hx.1 hx.2 ev)

/-- The external event-source driving loop of §6: feed the document's events
in order, aborting on the first failure (the driver stops feeding further
events for that document once a handler fails). -/
def run (t : Ty) (st : HState t) (v : Val t) : List Event → Bool × HState t × Val t
  | [] => (true, st, v)
  | ev :: rest =>
    let r := handle t st v ev
    if r.1 then run t r.2.1 r.2.2 rest else r

/-- `reap_error(stack)`, transcribed from the source: `ArrayHandler` /
`MapHandler` push their own `the_error` (if any) and then let the element
handler push its errors after it, so the stack reads container record
first, inner cause after; with no own error nothing is drained.
`PointerHandler::reap_error` merely delegates to `internal_handler` when
that exists. The leaf (modelled from the spec's `BaseHandler` behaviour)
pushes its own error if present. The stack is returned as the list of
records in push order; the `release()` of the drained records is not
modelled because no claim observes a handler after draining. -/
def reapError : (t : Ty) → HState t → List ErrType
  | .int, .intS _ e => e.toList
  | .arr t, .arrS _ e _ int_ _ =>
    match e with
    | none => []
    | some err => err :: reapError t int_
  | .map _ t, .mapS _ e _ int_ _ _ =>
    match e with
    | none => []
    | some err => err :: reapError t int_
  | .ptr _, .ptrNone _ _ _ => []
  | .ptr t, .ptrSome _ _ h _ => reapError t h

/-- `write(output)`, transcribed from the source against an always-accepting
event sink modelled as a list accumulator: `ArrayHandler::write` emits
`StartArray`, each element through a fresh element handler in container
order, then `EndArray(size)`; `MapHandler::write` emits `StartObject`, each
entry as its `Key` followed by the value's events, then `EndObject(size)`;
`PointerHandler::write` emits `Null` for an empty slot and otherwise
delegates to a handler over the held value. The integer leaf's replay (a
single `int` event) is modelled from the spec (§4.1 `write`). -/
def writeVal : (t : Ty) → Val t → List Event
  | .int, i => [.intE i]
  | .arr t, v =>
    .startArray ::
      (List.map (fun x => writeVal t x) (show List (Val t) from v)).flatten ++
      [.endArray (arrSize v)]
  | .map _ t, v =>
    .startObject ::
      (List.map (fun kx => .keyE kx.1 :: writeVal t kx.2)
        (show List (String × Val t) from v)).flatten ++
      [.endObject (List.length (show List (String × Val t) from v))]
  | .ptr t, v =>
    match show Option (Val t) from v with
    | none => [.null]
    | some x => writeVal t x

/-- Schema descriptors as produced by `generate_schema`: a leaf descriptor
for the modelled scalar, the `type:"null"` branch descriptor, the
`type:"array"` object with its `items` sub-descriptor, the `type:"object"`
descriptor with empty `properties` and an `additionalProperties`
sub-descriptor, and the `anyOf` two-branch union. -/
inductive Schema
  | intLeaf
  | nullDesc
  | arrayDesc (items : Schema)
  | objectDesc (additionalProperties : Schema)
  | anyOfDesc (first second : Schema)
deriving DecidableEq

/-- `generate_schema(output, alloc)`, transcribed from the source. Although
declared `const`, `PointerHandler::generate_schema` `const_cast`s itself and
calls `initialize()`, so for an unconstructed inner handler it installs a
default-constructed element into the bound slot; schema generation of the
nested handlers can therefore mutate state, and the function returns the
descriptor together with the updated handler state and bound value. The
leaf's descriptor is modelled from the spec (§6 "Schema descriptor
format"). -/
def generateSchema : (t : Ty) → HState t → Val t → Schema × HState t × Val t
  | .int, st, v => (.intLeaf, st, v)
  | .arr t, .arrS p e elem int_ d, v =>
    let r := generateSchema t int_ elem
    (.arrayDesc r.1, .arrS p e r.2.2 r.2.1 d, v)
  | .map _ t, .mapS p e elem int_ key d, v =>
    let r := generateSchema t int_ elem
    (.objectDesc r.1, .mapS p e r.2.2 r.2.1 key d, v)
  | .ptr t, .ptrNone p e d, _ =>
    let r := generateSchema t (initState t) (defaultVal t)
    (.anyOfDesc .nullDesc r.1, .ptrSome p e r.2.1 d, some r.2.2)
  | .ptr t, .ptrSome p e h d, v =>
    let r := generateSchema t h ((show Option (Val t) from v).getD (defaultVal t))
    (.anyOfDesc .nullDesc r.1, .ptrSome p e r.2.1 d, some r.2.2)

/-! ## General lemmas about the embedded handlers -/

/-- Reusing any handler whose bound value is already value-initialised
returns it to the pristine state of a freshly constructed handler over a
value-initialised bound value. -/
theorem prepareForReuse_default : (t : Ty) → (st : HState t) →
    prepareForReuse t st (defaultVal t) = (initState t, defaultVal t)
  | .int, .intS _ _ => rfl
  | .arr t, .arrS _ _ _ int_ _ => by
    have ih := prepareForReuse_default t int_
    simp [prepareForReuse, initState, ih]
  | .map _ t, .mapS _ _ _ int_ _ _ => by
    have ih := prepareForReuse_default t int_
    simp [prepareForReuse, initState, ih]
  | .ptr _, .ptrNone _ _ _ => by simp [prepareForReuse, initState, defaultVal]
  | .ptr _, .ptrSome _ _ _ _ => by simp [prepareForReuse, initState, defaultVal]

/-- `prepare_for_reuse()` on a sequential-container handler resets the
handler itself to its freshly-constructed state and does not touch the
bound container. -/
theorem prepareForReuse_arrS (t : Ty) (p : Bool) (e : Option ErrType)
    (elem : Val t) (int_ : HState t) (d : Int) (v : Val (.arr t)) :
    prepareForReuse (.arr t) (.arrS p e elem int_ d) v =
      (initState (.arr t), v) := by
  simp [prepareForReuse, initState, prepareForReuse_default t int_]

/-- `prepare_for_reuse()` on a keyed-map handler resets the handler itself
to its freshly-constructed state and does not touch the bound container. -/
theorem prepareForReuse_mapS (multi : Bool) (t : Ty) (p : Bool)
    (e : Option ErrType) (elem : Val t) (int_ : HState t) (key : String)
    (d : Int) (v : Val (.map multi t)) :
    prepareForReuse (.map multi t) (.mapS p e elem int_ key d) v =
      (initState (.map multi t), v) := by
  simp [prepareForReuse, initState, prepareForReuse_default t int_]

/-- Splitting a driven event list: the driver feeds the second part exactly
when the first part succeeded. -/
theorem run_append (t : Ty) (l1 l2 : List Event) :
    ∀ (st : HState t) (v : Val t),
    run t st v (l1 ++ l2) =
      (if (run t st v l1).1
       then run t (run t st v l1).2.1 (run t st v l1).2.2 l2
       else run t st v l1) := by
  induction l1 with
  | nil => intro st v; simp [run]
  | cons ev rest ih =>
    intro st v
    cases h : (handle t st v ev).1 <;> simp [run, h, ih]

/-- Inside its own array (depth 1), an integer-element container handler
consumes any run of integer events by appending each value, returning to
the identical state after every harvested element. -/
theorem runIntElems (xs : List Int) :
    ∀ (p : Bool) (e : Option ErrType) (v : Val (.arr .int)),
    run (.arr .int) (.arrS p e ((0 : Int) : Val .int) (.intS false none) 1) v
      (xs.map Event.intE) =
    (true, .arrS p e ((0 : Int) : Val .int) (.intS false none) 1,
      ((show List Int from v) ++ xs : List Int)) := by
  induction xs with
  | nil => intro p e v; simp [run]
  | cons x rest ih =>
    intro p e v
    have hstep :
        handle (.arr .int)
          (.arrS p e ((0 : Int) : Val .int) (.intS false none) 1) v (.intE x) =
        (true, .arrS p e ((0 : Int) : Val .int) (.intS false none) 1,
          ((show List Int from v) ++ [x] : List Int)) := rfl
    simp only [List.map_cons, run, hstep]
    rw [ih]
    simp

/-- `ArrayHandler::write` over an integer container replays exactly the
balanced sequence begin-array, one integer event per element in order,
end-array with the element count. -/
theorem writeArrInt (xs : List Int) :
    writeVal (.arr .int) xs =
      .startArray :: (xs.map Event.intE ++ [.endArray xs.length]) := by
  have h : (List.map (fun x => [Event.intE x]) xs).flatten = xs.map Event.intE := by
    induction xs with
    | nil => rfl
    | cons x rest ih => simp [ih]
  simp [writeVal, arrSize]
  exact h

/-! ## The claims -/

/-- First pass of the reuse scenario: decode the one-element array document
holding 1 with a fresh integer-container handler. -/
def c1First : Bool × HState (.arr .int) × Val (.arr .int) :=
  run (.arr .int) (initState (.arr .int)) (defaultVal (.arr .int))
    [.startArray, .intE 1, .endArray 1]

/-- The same handler and container after `prepare_for_reuse()`. -/
def c1Reused : HState (.arr .int) × Val (.arr .int) :=
  prepareForReuse (.arr .int) c1First.2.1 c1First.2.2

/-- Second pass through the reused handler: decode the different document
holding 2. -/
def c1Second : Bool × HState (.arr .int) × Val (.arr .int) :=
  run (.arr .int) c1Reused.1 c1Reused.2 [.startArray, .intE 2, .endArray 1]

/-- Reference pass: decode the second document with a brand-new handler
bound to an empty container. -/
def c1Fresh : Bool × HState (.arr .int) × Val (.arr .int) :=
  run (.arr .int) (initState (.arr .int)) (defaultVal (.arr .int))
    [.startArray, .intE 2, .endArray 1]

/-- Claim C1 is false as stated: after `prepare_for_reuse()` the second
decode of the document holding 2 yields the container holding 1 and 2 —
the first document's element 1 is still present — whereas a fresh handler
bound to an empty container yields the container holding only 2. Both
passes succeed, so the difference is exactly the uncleared container. -/
theorem claim_C1_counterexample :
    c1Second.1 = true ∧ c1Fresh.1 = true ∧
    c1Second.2.2 = ([1, 2] : List Int) ∧ c1Fresh.2.2 = ([2] : List Int) ∧
    c1Second.2.2 ≠ c1Fresh.2.2 :=
  ⟨rfl, rfl, rfl, rfl, by decide⟩

/-- Claim C1 amended: `prepare_for_reuse()` on a sequential-container or
keyed-map handler resets the handler itself to its pristine initial state —
depth zeroed, element buffer (and pending key) value-initialised, element
handler recursively reset, parsed flag and error cleared — but it does NOT
clear the bound container's prior contents. A second decode through the
reused handler therefore behaves exactly like a fresh decode that starts
from the container still holding the first document's elements; in the
concrete scenario the second pass appends 2 after the retained 1. -/
theorem claim_C1 :
    (∀ (t : Ty) (st : HState (.arr t)) (v : Val (.arr t)),
      prepareForReuse (.arr t) st v = (initState (.arr t), v)) ∧
    (∀ (multi : Bool) (t : Ty) (st : HState (.map multi t)) (v : Val (.map multi t)),
      prepareForReuse (.map multi t) st v = (initState (.map multi t), v)) ∧
    (∀ (t : Ty) (st : HState (.arr t)) (v : Val (.arr t)) (es : List Event),
      run (.arr t) (prepareForReuse (.arr t) st v).1
          (prepareForReuse (.arr t) st v).2 es =
        run (.arr t) (initState (.arr t)) v es) ∧
    c1Second.2.2 =
      ((show List Int from c1First.2.2) ++ (show List Int from c1Fresh.2.2) : List Int) := by
  have harr : ∀ (t : Ty) (st : HState (.arr t)) (v : Val (.arr t)),
      prepareForReuse (.arr t) st v = (initState (.arr t), v) := by
    intro t st v
    cases st with
    | arrS p e elem int_ d => exact prepareForReuse_arrS t p e elem int_ d v
  have hmap : ∀ (multi : Bool) (t : Ty) (st : HState (.map multi t))
      (v : Val (.map multi t)),
      prepareForReuse (.map multi t) st v = (initState (.map multi t), v) := by
    intro multi t st v
    cases st with
    | mapS p e elem int_ key d => exact prepareForReuse_mapS multi t p e elem int_ key d v
  refine ⟨harr, hmap, ?_, rfl⟩
  intro t st v es
  rw [harr]

/-- Claim C2: a forwarding failure inside the sequential-container handler
records ArrayElementError at the bound container's current size and
draining yields that record followed by the element handler's inner error;
a forwarding failure inside the keyed-map handler records ObjectMemberError
carrying the accumulated key, followed by the inner error. Concretely,
decoding the array document 1, 2, "bad" into an integer container fails
with ArrayElementError at index 2 wrapping TypeMismatch(int, string), and
decoding the object document with key "k" and value "bad" into an integer
map fails with ObjectMemberError for "k" wrapping the same mismatch. -/
theorem claim_C2 :
    (∀ (t : Ty) (p : Bool) (e : Option ErrType) (elem : Val t) (int_ : HState t)
       (d : Int) (v : Val (.arr t)) (ev : Event),
      ev.isArrayEvent = false → 0 < d → (handle t int_ elem ev).1 = false →
      handle (.arr t) (.arrS p e elem int_ d) v ev =
        (false, .arrS p (some (.arrayElement (arrSize v)))
          (handle t int_ elem ev).2.2 (handle t int_ elem ev).2.1 d, v) ∧
      reapError (.arr t) (handle (.arr t) (.arrS p e elem int_ d) v ev).2.1 =
        .arrayElement (arrSize v) :: reapError t (handle t int_ elem ev).2.1) ∧
    (∀ (multi : Bool) (t : Ty) (p : Bool) (e : Option ErrType) (elem : Val t)
       (int_ : HState t) (key : String) (d : Int) (v : Val (.map multi t)) (ev : Event),
      ev.isObjectEvent = false → 0 < d → (handle t int_ elem ev).1 = false →
      handle (.map multi t) (.mapS p e elem int_ key d) v ev =
        (false, .mapS p (some (.objectMember key))
          (handle t int_ elem ev).2.2 (handle t int_ elem ev).2.1 key d, v) ∧
      reapError (.map multi t)
          (handle (.map multi t) (.mapS p e elem int_ key d) v ev).2.1 =
        .objectMember key :: reapError t (handle t int_ elem ev).2.1) ∧
    ((run (.arr .int) (initState (.arr .int)) (defaultVal (.arr .int))
        [.startArray, .intE 1, .intE 2, .stringE "bad"]).1 = false ∧
      reapError (.arr .int)
          (run (.arr .int) (initState (.arr .int)) (defaultVal (.arr .int))
            [.startArray, .intE 1, .intE 2, .stringE "bad"]).2.1 =
        [.arrayElement 2, .typeMismatch "int" "string"]) ∧
    ((run (.map false .int) (initState (.map false .int)) (defaultVal (.map false .int))
        [.startObject, .keyE "k", .stringE "bad"]).1 = false ∧
      reapError (.map false .int)
          (run (.map false .int) (initState (.map false .int))
            (defaultVal (.map false .int)) [.startObject, .keyE "k", .stringE "bad"]).2.1 =
        [.objectMember "k", .typeMismatch "int" "string"]) := by
  refine ⟨?_, ?_, ⟨rfl, rfl⟩, ⟨rfl, rfl⟩⟩
  · intro t p e elem int_ d v ev hev hd hfail
    have key : handle (.arr t) (.arrS p e elem int_ d) v ev =
        (false, .arrS p (some (.arrayElement (arrSize v)))
          (handle t int_ elem ev).2.2 (handle t int_ elem ev).2.1 d, v) := by
      cases ev <;>
        simp_all [handle, arrScalar, arrForward, Event.isArrayEvent,
          (by omega : ¬ d ≤ 0)]
    exact ⟨key, by rw [key]; simp [reapError]⟩
  · intro multi t p e elem int_ key d v ev hev hd hfail
    have keyq : handle (.map multi t) (.mapS p e elem int_ key d) v ev =
        (false, .mapS p (some (.objectMember key))
          (handle t int_ elem ev).2.2 (handle t int_ elem ev).2.1 key d, v) := by
      cases ev <;>
        simp_all [handle, mapScalar, mapForward, Event.isObjectEvent,
          (by omega : ¬ d ≤ 0)]
    exact ⟨keyq, by rw [keyq]; simp [reapError]⟩

/-- Witness for C2: instantiating the general parts — a string event
forwarded at depth 1 over a one-element integer container (size 1) records
ArrayElementError at index 1 around the leaf's TypeMismatch, and the same
event inside a map with pending key "k" records ObjectMemberError "k". -/
theorem claim_C2_witness :
    (handle (.arr .int) (.arrS false none ((0 : Int) : Val .int) (.intS false none) 1)
        (([5] : List Int) : Val (.arr .int)) (.stringE "x") =
      (false, .arrS false (some (.arrayElement 1)) ((0 : Int) : Val .int)
        (.intS false (some (.typeMismatch "int" "string"))) 1, ([5] : List Int))) ∧
    (handle (.map false .int)
        (.mapS false none ((0 : Int) : Val .int) (.intS false none) "k" 1)
        (([] : List (String × Int)) : Val (.map false .int)) (.stringE "x") =
      (false, .mapS false (some (.objectMember "k")) ((0 : Int) : Val .int)
        (.intS false (some (.typeMismatch "int" "string"))) "k" 1, [])) := by
  constructor
  · exact (claim_C2.1 .int false none ((0 : Int) : Val .int) (.intS false none) 1
      (([5] : List Int) : Val (.arr .int)) (.stringE "x") rfl (by decide) rfl).1
  · exact (claim_C2.2.1 false .int false none ((0 : Int) : Val .int)
      (.intS false none) "k" 1 (([] : List (String × Int)) : Val (.map false .int))
      (.stringE "x") rfl (by decide) rfl).1

/-- Claim C3: begin-array is consumed (depth 0 to 1) without forwarding;
at depth at least 1 it is forwarded through postcheck; end-array decrements
first, forwards while the depth stays positive, and otherwise marks parsed
without forwarding; a successfully forwarded event whose element handler
reports parsed moves the element onto the back of the container, resets
the buffer to its default and reuses the same (reset) element handler; and
decoding the nested document of arrays 1,2 and 3 into a container of
integer containers yields exactly the two inner containers of sizes 2 and
1 in order. -/
theorem claim_C3 :
    (∀ (t : Ty) (p : Bool) (e : Option ErrType) (elem : Val t) (int_ : HState t)
       (v : Val (.arr t)),
      handle (.arr t) (.arrS p e elem int_ 0) v .startArray =
        (true, .arrS p e elem int_ 1, v)) ∧
    (∀ (t : Ty) (p : Bool) (e : Option ErrType) (elem : Val t) (int_ : HState t)
       (d : Int) (v : Val (.arr t)), 1 ≤ d →
      handle (.arr t) (.arrS p e elem int_ d) v .startArray =
        arrForward t p e (d + 1) v (handle t int_ elem .startArray)) ∧
    (∀ (t : Ty) (p : Bool) (e : Option ErrType) (elem : Val t) (int_ : HState t)
       (d : Int) (v : Val (.arr t)) (len : Nat), 1 < d →
      handle (.arr t) (.arrS p e elem int_ d) v (.endArray len) =
        arrForward t p e (d - 1) v (handle t int_ elem (.endArray len))) ∧
    (∀ (t : Ty) (p : Bool) (e : Option ErrType) (elem : Val t) (int_ : HState t)
       (d : Int) (v : Val (.arr t)) (len : Nat), d ≤ 1 →
      handle (.arr t) (.arrS p e elem int_ d) v (.endArray len) =
        (true, .arrS true e elem int_ (d - 1), v)) ∧
    (∀ (t : Ty) (p : Bool) (e : Option ErrType) (d : Int) (v : Val (.arr t))
       (res : Bool × HState t × Val t),
      res.1 = true → isParsed res.2.1 = true →
      arrForward t p e d v res =
        (true, .arrS p e (defaultVal t) (initState t) d,
          (show List (Val t) from v) ++ [res.2.2])) ∧
    (run (.arr (.arr .int)) (initState (.arr (.arr .int))) (defaultVal (.arr (.arr .int)))
        [.startArray, .startArray, .intE 1, .intE 2, .endArray 2,
         .startArray, .intE 3, .endArray 1, .endArray 2] =
      (true, .arrS true none (defaultVal (.arr .int)) (initState (.arr .int)) 0,
        [[(1 : Int), 2], [3]])) := by
  refine ⟨?_, ?_, ?_, ?_, ?_, rfl⟩
  · intro t p e elem int_ v
    simp [handle]
  · intro t p e elem int_ d v hd
    simp only [handle]
    rw [if_pos (by omega : d + 1 > 1)]
  · intro t p e elem int_ d v len hd
    simp only [handle]
    rw [if_pos (by omega : d - 1 > 0)]
  · intro t p e elem int_ d v len hd
    simp only [handle]
    rw [if_neg (by omega : ¬ d - 1 > 0)]
  · intro t p e d v res h1 h2
    simp [arrForward, h1, h2, prepareForReuse_default t res.2.1]

/-- Witness for C3: the depth-transition and harvest parts instantiated at
concrete states of the integer-container handler. -/
theorem claim_C3_witness :
    (handle (.arr .int) (.arrS false none ((0 : Int) : Val .int) (.intS false none) 1)
        (([] : List Int) : Val (.arr .int)) .startArray =
      arrForward .int false none 2 (([] : List Int) : Val (.arr .int))
        (handle .int (.intS false none) ((0 : Int) : Val .int) .startArray)) ∧
    (handle (.arr .int) (.arrS false none ((0 : Int) : Val .int) (.intS false none) 2)
        (([] : List Int) : Val (.arr .int)) (.endArray 0) =
      arrForward .int false none 1 (([] : List Int) : Val (.arr .int))
        (handle .int (.intS false none) ((0 : Int) : Val .int) (.endArray 0))) ∧
    (handle (.arr .int) (.arrS false none ((0 : Int) : Val .int) (.intS false none) 1)
        (([] : List Int) : Val (.arr .int)) (.endArray 0) =
      (true, .arrS true none ((0 : Int) : Val .int) (.intS false none) 0, [])) ∧
    (arrForward .int false none 1 (([] : List Int) : Val (.arr .int))
        (true, .intS true none, ((7 : Int) : Val .int)) =
      (true, .arrS false none ((0 : Int) : Val .int) (.intS false none) 1,
        ([7] : List Int))) := by
  refine ⟨?_, ?_, ?_, ?_⟩
  · exact claim_C3.2.1 .int false none _ _ 1 _ (by decide)
  · exact claim_C3.2.2.1 .int false none _ _ 2 _ 0 (by decide)
  · exact claim_C3.2.2.2.1 .int false none _ _ 1 _ 0 (by decide)
  · exact claim_C3.2.2.2.2.1 .int false none 1 _
      (true, .intS true none, ((7 : Int) : Val .int)) rfl rfl

/-- Claim C4: decoding a single array of integer element documents produces
the container with the elements in input order and re-encoding it via
write reproduces the same balanced event sequence (begin-array, the
elements in order, end-array with the count); decoding the object document
with entries a:X and b:Y into a plain string-keyed integer map and
re-encoding yields exactly those two entries; and for the multimap variant
the duplicate-key document a:X, a:Y keeps both entries in insertion
order. -/
theorem claim_C4 :
    (∀ xs : List Int,
      run (.arr .int) (initState (.arr .int)) (defaultVal (.arr .int))
          (.startArray :: (xs.map Event.intE ++ [.endArray xs.length])) =
        (true, .arrS true none ((0 : Int) : Val .int) (.intS false none) 0,
          (xs : List Int)) ∧
      writeVal (.arr .int) xs =
        .startArray :: (xs.map Event.intE ++ [.endArray xs.length])) ∧
    (∀ X Y : Int,
      run (.map false .int) (initState (.map false .int)) (defaultVal (.map false .int))
          [.startObject, .keyE "a", .intE X, .keyE "b", .intE Y, .endObject 2] =
        (true, .mapS true none ((0 : Int) : Val .int) (.intS false none) "" 0,
          ([("a", X), ("b", Y)] : List (String × Int))) ∧
      writeVal (.map false .int) ([("a", X), ("b", Y)] : List (String × Int)) =
        [.startObject, .keyE "a", .intE X, .keyE "b", .intE Y, .endObject 2]) ∧
    (∀ X Y : Int,
      run (.map true .int) (initState (.map true .int)) (defaultVal (.map true .int))
          [.startObject, .keyE "a", .intE X, .keyE "a", .intE Y, .endObject 2] =
        (true, .mapS true none ((0 : Int) : Val .int) (.intS false none) "" 0,
          ([("a", X), ("a", Y)] : List (String × Int))) ∧
      writeVal (.map true .int) ([("a", X), ("a", Y)] : List (String × Int)) =
        [.startObject, .keyE "a", .intE X, .keyE "a", .intE Y, .endObject 2]) := by
  refine ⟨?_, fun X Y => ⟨rfl, rfl⟩, fun X Y => ⟨rfl, rfl⟩⟩
  intro xs
  constructor
  · have h0 : handle (.arr .int) (initState (.arr .int)) (defaultVal (.arr .int))
        .startArray =
        (true, .arrS false none ((0 : Int) : Val .int) (.intS false none) 1,
          (([] : List Int) : Val (.arr .int))) := rfl
    have h2 : handle (.arr .int)
        (.arrS false none ((0 : Int) : Val .int) (.intS false none) 1)
        ((xs : List Int) : Val (.arr .int)) (.endArray xs.length) =
        (true, .arrS true none ((0 : Int) : Val .int) (.intS false none) 0,
          (xs : List Int)) := rfl
    simp only [run, h0]
    rw [run_append]
    rw [runIntElems]
    simp only [List.nil_append, run, h2]
    simp [run]
  · exact writeArrInt xs

/-- Claim C5: a null event at depth 0 empties the bound slot, marks parsed
and succeeds without constructing the held value or its handler (the inner
handler stays unconstructed); initialize on an already-constructed handler
constructs nothing further; and every non-null event on a fresh handler
behaves exactly as on a handler whose slot and inner handler were just
default-constructed, with the event forwarded into the inner handler. -/
theorem claim_C5 :
    (∀ (t : Ty) (p : Bool) (e : Option ErrType) (v : Val (.ptr t)),
      handle (.ptr t) (.ptrNone p e 0) v .null = (true, .ptrNone true e 0, none)) ∧
    (∀ (t : Ty) (h : HState t) (x : Val t),
      ptrInitialize t (some h) (some x) = (h, x)) ∧
    (∀ (t : Ty) (p : Bool) (e : Option ErrType) (d : Int) (v : Val (.ptr t)) (ev : Event),
      ev ≠ .null →
      handle (.ptr t) (.ptrNone p e d) v ev =
        handle (.ptr t) (.ptrSome p e (initState t) d) (some (defaultVal t)) ev) ∧
    (∀ (t : Ty) (p : Bool) (e : Option ErrType) (d : Int) (v : Val (.ptr t)) (ev : Event),
      ev ≠ .null →
      ptrInternal (handle (.ptr t) (.ptrNone p e d) v ev).2.1 =
        some ((handle t (initState t) (defaultVal t) ev).2.1)) := by
  refine ⟨?_, ?_, ?_, ?_⟩
  · intro t p e v
    simp [handle, isParsed, theErrorOf, depthOf, ptrInternal, ptrMk]
  · intro t h x
    simp [ptrInitialize]
  · intro t p e d v ev hev
    cases ev <;>
      simp_all [handle, isParsed, theErrorOf, depthOf, ptrInternal, ptrInitialize]
  · intro t p e d v ev hev
    cases ev <;>
      simp_all [handle, isParsed, theErrorOf, depthOf, ptrInternal, ptrInitialize,
        ptrPostcheck, ptrNoPostcheck]

/-- Witness for C5: the null path on a fresh nullable-integer handler, the
no-op of initialize on a constructed handler, and the lazy construction
plus forwarding of an integer event. -/
theorem claim_C5_witness :
    (handle (.ptr .int) (.ptrNone false none 0)
        ((none : Option Int) : Val (.ptr .int)) .null =
      (true, .ptrNone true none 0, none)) ∧
    (ptrInitialize .int (some (.intS false none)) (some ((3 : Int) : Val .int)) =
      (.intS false none, ((3 : Int) : Val .int))) ∧
    (handle (.ptr .int) (.ptrNone false none 0)
        ((none : Option Int) : Val (.ptr .int)) (.intE 7) =
      handle (.ptr .int) (.ptrSome false none (.intS false none) 0)
        ((some ((0 : Int)) : Option Int) : Val (.ptr .int)) (.intE 7)) ∧
    (ptrInternal (handle (.ptr .int) (.ptrNone false none 0)
        ((none : Option Int) : Val (.ptr .int)) (.intE 7)).2.1 =
      some (.intS true none)) := by
  refine ⟨?_, ?_, ?_, ?_⟩
  · exact claim_C5.1 .int false none ((none : Option Int) : Val (.ptr .int))
  · exact claim_C5.2.1 .int (.intS false none) ((3 : Int) : Val .int)
  · exact claim_C5.2.2.1 .int false none 0 ((none : Option Int) : Val (.ptr .int))
      (.intE 7) (by decide)
  · exact claim_C5.2.2.2 .int false none 0 ((none : Option Int) : Val (.ptr .int))
      (.intE 7) (by decide)

/-- Claim C6 is false as stated: generating a schema from a fresh
nullable-integer handler bound to an empty slot does produce the two-branch
union of null and the integer leaf, but the bound slot is NOT left
unchanged — generate_schema const-casts itself and calls initialize, so the
formerly empty slot afterwards holds a default-constructed value (0), not
emptiness. -/
theorem claim_C6_counterexample :
    (generateSchema (.ptr .int) (initState (.ptr .int)) (defaultVal (.ptr .int))).1 =
      .anyOfDesc .nullDesc .intLeaf ∧
    (generateSchema (.ptr .int) (initState (.ptr .int)) (defaultVal (.ptr .int))).2.2 =
      ((some ((0 : Int)) : Option Int) : Val (.ptr .int)) ∧
    (generateSchema (.ptr .int) (initState (.ptr .int)) (defaultVal (.ptr .int))).2.2 ≠
      defaultVal (.ptr .int) :=
  ⟨rfl, rfl, by decide⟩

/-- Claim C6 amended: the nullable handler's schema is unconditionally the
two-branch union of the null descriptor and the held type's own schema
shape, and it needs no caller-supplied data (the bound slot's prior value
is irrelevant); but on a handler whose inner handler is unconstructed,
generate_schema initialises the handler in place: afterwards the slot
holds a default-constructed instance of the held type — an empty slot does
not stay empty. -/
theorem claim_C6 :
    (∀ (t : Ty) (p : Bool) (e : Option ErrType) (d : Int) (v : Val (.ptr t)),
      generateSchema (.ptr t) (.ptrNone p e d) v =
        (.anyOfDesc .nullDesc (generateSchema t (initState t) (defaultVal t)).1,
          .ptrSome p e (generateSchema t (initState t) (defaultVal t)).2.1 d,
          some (generateSchema t (initState t) (defaultVal t)).2.2)) ∧
    (generateSchema (.ptr .int) (initState (.ptr .int)) (defaultVal (.ptr .int)) =
      (.anyOfDesc .nullDesc .intLeaf, .ptrSome false none (.intS false none) 0,
        ((some ((0 : Int)) : Option Int) : Val (.ptr .int)))) := by
  refine ⟨?_, rfl⟩
  intro t p e d v
  simp [generateSchema]

/-- Claim C7: every event other than begin-array and end-array arriving at
a sequential-container handler while depth is at most 0 fails immediately
with TypeMismatch naming the container type and the event kind, without
forwarding to the element handler and without touching the element buffer,
the element handler or the bound container; in particular null at depth 0
fails. -/
theorem claim_C7 (t : Ty) (p : Bool) (e : Option ErrType) (elem : Val t)
    (int_ : HState t) (d : Int) (v : Val (.arr t)) (ev : Event)
    (hev : ev.isArrayEvent = false) (hd : d ≤ 0) :
    handle (.arr t) (.arrS p e elem int_ d) v ev =
      (false,
        .arrS p (some (.typeMismatch ("std::vector<" ++ typeNameS int_ ++ ">")
          ev.kindName)) elem int_ d, v) := by
  cases ev <;> simp_all [handle, arrScalar, Event.isArrayEvent, Event.kindName]

/-- Witness for C7: a null event on a freshly constructed integer-container
handler (depth 0) fails with TypeMismatch(std::vector of int, null). -/
theorem claim_C7_witness :
    handle (.arr .int) (.arrS false none ((0 : Int) : Val .int) (.intS false none) 0)
        (([] : List Int) : Val (.arr .int)) .null =
      (false, .arrS false (some (.typeMismatch "std::vector<int>" "null"))
        ((0 : Int) : Val .int) (.intS false none) 0, []) :=
  claim_C7 .int false none ((0 : Int) : Val .int) (.intS false none) 0
    (([] : List Int) : Val (.arr .int)) .null rfl (by decide)

/-- The event sequence exhibiting the C8 counterexample: a null (consumed
at depth 0, setting parsed), then a begin-object, fed to a fresh nullable
handler over a string-keyed integer map. Both events succeed. -/
def c8Run : Bool × HState (.ptr (.map false .int)) × Val (.ptr (.map false .int)) :=
  run (.ptr (.map false .int)) (initState (.ptr (.map false .int)))
    (defaultVal (.ptr (.map false .int))) [.null, .startObject]

/-- Claim C8 is false as stated for begin-object: after the successful
event sequence null then begin-object on a fresh nullable-map handler, the
outer handler's parsed flag (set to true by the null) is NOT updated by the
successful begin-object — StartObject forwards without postcheck — so it
reads true while the freshly constructed inner handler's parsed flag is
false. -/
theorem claim_C8_counterexample :
    c8Run.1 = true ∧ isParsed c8Run.2.1 = true ∧
    ptrInnerParsed c8Run.2.1 = false ∧
    isParsed c8Run.2.1 ≠ ptrInnerParsed c8Run.2.1 :=
  ⟨rfl, rfl, rfl, by decide⟩

/-- Claim C8 amended: after every successful non-null event EXCEPT
begin-object, the nullable handler's own parsed flag equals the inner
handler's parsed flag at that moment; begin-object alone forwards without
postcheck, leaving the flag at its prior value. -/
theorem claim_C8 :
    (∀ (t : Ty) (st : HState (.ptr t)) (v : Val (.ptr t)) (ev : Event),
      ev ≠ .null → ev ≠ .startObject →
      (handle (.ptr t) st v ev).1 = true →
      isParsed (handle (.ptr t) st v ev).2.1 =
        ptrInnerParsed (handle (.ptr t) st v ev).2.1) ∧
    (∀ (t : Ty) (st : HState (.ptr t)) (v : Val (.ptr t)),
      isParsed (handle (.ptr t) st v .startObject).2.1 = isParsed st) := by
  constructor
  · intro t st v ev h1 h2 hsucc
    cases st <;> cases ev <;>
      simp_all [handle, isParsed, theErrorOf, depthOf, ptrInternal, ptrInitialize,
        ptrPostcheck, ptrInnerParsed]
  · intro t st v
    cases st <;>
      simp [handle, isParsed, theErrorOf, depthOf, ptrInternal, ptrInitialize,
        ptrNoPostcheck]

/-- Witness for C8: a successful integer event on a fresh nullable-integer
handler leaves the outer parsed flag equal to the inner handler's (both
true). -/
theorem claim_C8_witness :
    isParsed (handle (.ptr .int) (.ptrNone false none 0)
        ((none : Option Int) : Val (.ptr .int)) (.intE 7)).2.1 =
      ptrInnerParsed (handle (.ptr .int) (.ptrNone false none 0)
        ((none : Option Int) : Val (.ptr .int)) (.intE 7)).2.1 :=
  claim_C8.1 .int (.ptrNone false none 0)
    ((none : Option Int) : Val (.ptr .int)) (.intE 7) (by decide) (by decide) rfl

/-- Claim C9: an end-array event on a freshly constructed
sequential-container handler (depth 0) does not fail — it succeeds, sets
parsed, and leaves the depth counter at minus one; symmetrically an
end-object on a fresh keyed-map handler succeeds with parsed set and depth
minus one. -/
theorem claim_C9 :
    (∀ (t : Ty) (v : Val (.arr t)) (len : Nat),
      handle (.arr t) (initState (.arr t)) v (.endArray len) =
        (true, .arrS true none (defaultVal t) (initState t) (-1), v)) ∧
    (∀ (multi : Bool) (t : Ty) (v : Val (.map multi t)) (len : Nat),
      handle (.map multi t) (initState (.map multi t)) v (.endObject len) =
        (true, .mapS true none (defaultVal t) (initState t) "" (-1), v)) := by
  constructor
  · intro t v len
    simp [handle, initState]
  · intro multi t v len
    simp [handle, initState]

/-- Claim C10: a key event at a keyed-map handler whose depth is at most 1
(including depth 0 or below) always succeeds, storing the bytes as the
pending entry key in place of any previous one, forwarding nothing and
recording no error (the state is otherwise untouched); only at depth
greater than 1 is the key forwarded to the element handler through
postcheck. -/
theorem claim_C10 :
    (∀ (multi : Bool) (t : Ty) (p : Bool) (e : Option ErrType) (elem : Val t)
       (int_ : HState t) (key : String) (d : Int) (v : Val (.map multi t)) (s : String),
      d ≤ 1 →
      handle (.map multi t) (.mapS p e elem int_ key d) v (.keyE s) =
        (true, .mapS p e elem int_ s d, v)) ∧
    (∀ (multi : Bool) (t : Ty) (p : Bool) (e : Option ErrType) (elem : Val t)
       (int_ : HState t) (key : String) (d : Int) (v : Val (.map multi t)) (s : String),
      1 < d →
      handle (.map multi t) (.mapS p e elem int_ key d) v (.keyE s) =
        mapForward multi t p e key d v (handle t int_ elem (.keyE s))) := by
  constructor
  · intro multi t p e elem int_ key d v s hd
    simp only [handle]
    rw [if_neg (by omega : ¬ d > 1)]
  · intro multi t p e elem int_ key d v s hd
    simp only [handle]
    rw [if_pos (by omega : d > 1)]

/-- Witness for C10: a key event at depth 0 (before the map's own
begin-object) succeeds and stores the key; one at depth 2 is forwarded. -/
theorem claim_C10_witness :
    (handle (.map false .int)
        (.mapS false none ((0 : Int) : Val .int) (.intS false none) "" 0)
        (([] : List (String × Int)) : Val (.map false .int)) (.keyE "a") =
      (true, .mapS false none ((0 : Int) : Val .int) (.intS false none) "a" 0, [])) ∧
    (handle (.map false .int)
        (.mapS false none ((0 : Int) : Val .int) (.intS false none) "q" 2)
        (([] : List (String × Int)) : Val (.map false .int)) (.keyE "a") =
      mapForward false .int false none "q" 2
        (([] : List (String × Int)) : Val (.map false .int))
        (handle .int (.intS false none) ((0 : Int) : Val .int) (.keyE "a"))) := by
  constructor
  · exact claim_C10.1 false .int false none ((0 : Int) : Val .int) (.intS false none)
      "" 0 (([] : List (String × Int)) : Val (.map false .int)) "a" (by decide)
  · exact claim_C10.2 false .int false none ((0 : Int) : Val .int) (.intS false none)
      "q" 2 (([] : List (String × Int)) : Val (.map false .int)) "a" (by decide)

end StaticJson
